import Mathlib

/-!
Verification of the Isha backend conversation-turn pipeline
(`src/app.py`, `src/config.py`).

The embedding models the dict-shaped messages of the Python code as a
structure with string roles, the Gemini client handle `llm` as an
`Option LLMResult` (absent / call returns text / call raises), and the
two `datetime.now()` reads per turn as an explicit `Clock` argument.
-/

namespace Isha

/-- Outcome of one `llm.invoke` call made by `isha_agent`:
`ok text` — the call returns `text`; `exn` — the call raises. -/
inductive LLMResult where
  | ok (text : String)
  | exn
  deriving DecidableEq, Repr

/-- The two `datetime.now()` readings used to build a fresh message:
`iso` stands for `datetime.now().isoformat()` and `ts` for
`str(datetime.now().timestamp())`. -/
structure Clock where
  iso : String
  ts : String
  deriving DecidableEq, Repr

/-- One message dict: `{role, content, timestamp, message_id, error}`.
A key absent from the Python dict is modelled by the default value. -/
structure Message where
  role : String
  content : String
  timestamp : String := ""
  message_id : String := ""
  error : Bool := false
  deriving DecidableEq, Repr

/-- `ConversationState` TypedDict from `src/app.py`: messages, user_name
and an opaque context bag (modelled as a string-to-string association
list, enough for the passthrough claims). -/
structure ConversationState where
  messages : List Message
  user_name : String
  context : List (String × String)
  deriving DecidableEq, Repr

/-- `pat starts s`: Boolean check that the character list `pat` is an
initial segment of `s`; used to model Python's `in` operator. -/
def charsStart : List Char → List Char → Bool
  | [], _ => true
  | _ :: _, [] => false
  | a :: p, b :: s => a == b && charsStart p s

/-- `pat occurs in s`: Boolean substring occurrence on character lists;
models Python's `pat in s`. -/
def charsSub (pat : List Char) : List Char → Bool
  | [] => charsStart pat []
  | b :: s => charsStart pat (b :: s) || charsSub pat s

/-- Python's `pat in s` on strings. -/
def strHas (s pat : String) : Bool := charsSub pat.data s.data

/-- Python's `s.lower()`, modelled as character-wise lowering. -/
def pyLower (s : String) : String := ⟨s.data.map Char.toLower⟩

/-- Drop leading whitespace from a character list. -/
def dropLeadingWs : List Char → List Char
  | [] => []
  | c :: cs => if c.isWhitespace then dropLeadingWs cs else c :: cs

/-- Python's `s.strip()`: remove leading and trailing whitespace. -/
def pyStrip (s : String) : String :=
  ⟨(dropLeadingWs (dropLeadingWs s.data).reverse).reverse⟩

/-- The fixed acknowledgement phrase set from `isha_agent`. -/
def ack_phrases : List String := ["replying to", "responding to", "you said", "your message"]

/-- The check `any(phrase in ai_response.lower() for phrase in ...)`. -/
def hasAck (s : String) : Bool := ack_phrases.any (fun p => strHas (pyLower s) p)

/-- The prefix prepended when no acknowledgement phrase is found. -/
def canonical_ack : String := "I\x27m replying to your message: "

/-- The system instruction built by `isha_agent`, parameterized by
`user_name` (the f-string at lines 81–96 of `src/app.py`). -/
def system_message (user_name : String) : String :=
  "\n        You are Isha, a professional AI assistant. You are responding to a voice message from " ++ user_name ++ ".\n        \n        Key guidelines:\n        1. Keep responses conversational and natural for voice interaction\n        2. Be concise but informative - avoid overly long responses\n        3. Speak directly to the user in a warm, friendly tone\n        4. Provide clear, actionable answers\n        5. If the question is complex, break it down into simple points\n        6. Use natural speech patterns and avoid overly formal language\n        7. Keep responses under 150 words when possible for better voice experience\n        8. If you need to provide lists, use \"first\", \"second\", \"third\" instead of bullet points\n        \n        Remember: Your response will be spoken aloud to the user, so make it sound natural and conversational.\n        Current conversation context: You are having a voice conversation with " ++ user_name ++ ".\n        "

/-- A role-tagged prompt turn handed to the completion client
(`SystemMessage` / `HumanMessage` / `AIMessage`). -/
inductive PromptTurn where
  | system (content : String)
  | human (content : String)
  | ai (content : String)
  deriving DecidableEq, Repr

/-- `messages[-5:] if len(messages) > 5 else messages`. -/
def recent_messages (messages : List Message) : List Message :=
  if messages.length > 5 then messages.drop (messages.length - 5) else messages

/-- The loop body at lines 103–107 of `src/app.py`: a user message
becomes a `HumanMessage`, an assistant message an `AIMessage`, and any
other role is skipped. -/
def to_prompt_turn (msg : Message) : Option PromptTurn :=
  if msg.role = "user" then some (PromptTurn.human msg.content)
  else if msg.role = "assistant" then some (PromptTurn.ai msg.content)
  else none

/-- The full prompt list `conversation_messages`: the system instruction
followed by the role-tagged recent window. -/
def conversation_messages (user_name : String) (messages : List Message) : List PromptTurn :=
  PromptTurn.system (system_message user_name) :: (recent_messages messages).filterMap to_prompt_turn

/-- The fallback reply used when no client is configured (line 120).
The appends are grouped to the right, which leaves the string itself
unchanged but exposes each interpolated part for the substring lemmas. -/
def fallback_response (user_name user_input : String) : String :=
  "Hi " ++ (user_name ++ ("! I heard you say \x27" ++ (user_input ++ "\x27. I\x27m Isha, your AI assistant. I\x27m currently running in demo mode and need the Gemini API to be configured for full functionality. But I\x27m still here to help you with whatever you need!")))

/-- The apology used by the `except` block of `isha_agent` (line 142). -/
def error_response (user_name : String) : String :=
  "Hi " ++ (user_name ++ "! I encountered a technical issue while processing your request, but don\x27t worry - I\x27m still here to help! Please try asking your question again.")

/-- `isha_agent` from `src/app.py` (lines 60–151). `llm = none` models
the unconfigured client; `llm = some .exn` models a call that raises,
which lands in the `except` block; `llm = some (.ok text)` models a
successful completion returning `text`. The prompt construction and
response assembly are pure here, so the only raise site is the call. -/
def isha_agent (llm : Option LLMResult) (clock : Clock) (state : ConversationState) :
    ConversationState :=
  let messages := state.messages
  let user_name := state.user_name
  if messages.isEmpty then state
  else
    match messages.getLast? with
    | none => state
    | some last_message =>
      if last_message.role = "user" then
        let user_input := last_message.content
        match llm with
        | some (LLMResult.ok text) =>
          let ai_response := if hasAck text then text else canonical_ack ++ text
          { state with
            messages := messages ++
              [{ role := "assistant", content := ai_response,
                 timestamp := clock.iso, message_id := "isha_" ++ clock.ts }] }
        | some LLMResult.exn =>
          { state with
            messages := messages ++
              [{ role := "assistant", content := error_response user_name,
                 timestamp := clock.iso, message_id := "isha_error_" ++ clock.ts,
                 error := true }] }
        | none =>
          { state with
            messages := messages ++
              [{ role := "assistant", content := fallback_response user_name user_input,
                 timestamp := clock.iso, message_id := "isha_" ++ clock.ts }] }
      else state

/-- The compiled one-node LangGraph workflow: its `invoke` runs the
single `isha_agent` node once and terminates. -/
def isha_workflow_invoke (llm : Option LLMResult) (clock : Clock)
    (state : ConversationState) : ConversationState :=
  isha_agent llm clock state

/-- The parsed JSON body of `POST /chat`, after the `data.get` defaults
of lines 196–198 and 218 of `src/app.py` have been applied. -/
structure ChatRequest where
  message : String
  user_name : String
  conversation_history : List Message
  session_id : String
  deriving DecidableEq, Repr

/-- The success-shaped JSON answer of the `chat` route (lines 243–249). -/
structure ChatResponse where
  response : String
  message_id : String
  timestamp : String
  user_name : String
  status : String
  deriving DecidableEq, Repr

/-- The `chat` route handler (lines 185–253 of `src/app.py`), minus the
outer `except` that only fires if the handler body itself raises.
`uclock` supplies the `datetime.now()` reads taken while building the
user message and the initial context; `clock` those taken inside the
agent and for the route-level fallback. `Except.error` is the 400
answer for an empty message. -/
def chat (llm : Option LLMResult) (clock uclock : Clock) (req : ChatRequest) :
    Except String ChatResponse :=
  let user_message := pyStrip req.message
  if user_message = "" then Except.error "No message provided"
  else
    let user_message_obj : Message :=
      { role := "user", content := user_message,
        timestamp := uclock.iso, message_id := "user_" ++ uclock.ts }
    let initial_state : ConversationState :=
      { messages := req.conversation_history ++ [user_message_obj],
        user_name := req.user_name,
        context := [("session_id", req.session_id), ("timestamp", uclock.iso)] }
    let result := isha_workflow_invoke llm clock initial_state
    let ai_response : Message :=
      match (result.messages.reverse.find? (fun m => m.role == "assistant")) with
      | some msg => msg
      | none =>
        { role := "assistant",
          content := "I\x27m replying to your message, " ++ req.user_name ++ ". I\x27m having trouble processing your request right now, but I\x27m here to help!",
          timestamp := clock.iso, message_id := "isha_fallback_" ++ clock.ts }
    Except.ok
      { response := ai_response.content, message_id := ai_response.message_id,
        timestamp := ai_response.timestamp, user_name := req.user_name,
        status := "success" }

/-- A six-message well-formed history (roles drawn from the closed
user/assistant enum), used to instantiate the windowing theorem. -/
def sampleHistory : List Message :=
  [{ role := "user", content := "m1" }, { role := "assistant", content := "m2" },
   { role := "user", content := "m3" }, { role := "assistant", content := "m4" },
   { role := "user", content := "m5" }, { role := "user", content := "m6" }]

/-- A six-message history carrying one `system`-role message inside the
trailing five-message window. -/
def mixedHistory : List Message :=
  [{ role := "user", content := "m1" }, { role := "user", content := "m2" },
   { role := "system", content := "m3" }, { role := "user", content := "m4" },
   { role := "assistant", content := "m5" }, { role := "user", content := "m6" }]

/-! ### Substring helper lemmas -/

theorem charsStart_self (p : List Char) : charsStart p p = true := by
  induction p with
  | nil => rfl
  | cons a p ih => simp [charsStart, ih]

theorem charsStart_append (p l l' : List Char) (h : charsStart p l = true) :
    charsStart p (l ++ l') = true := by
  induction p generalizing l with
  | nil => rfl
  | cons a p ih =>
    cases l with
    | nil => simp [charsStart] at h
    | cons b s =>
      simp only [charsStart, Bool.and_eq_true] at h
      simp [charsStart, h.1, ih s h.2]

theorem charsSub_of_charsStart (p l : List Char) (h : charsStart p l = true) :
    charsSub p l = true := by
  cases l with
  | nil => simpa [charsSub] using h
  | cons b s => simp [charsSub, h]

theorem charsSub_append_right (p l l' : List Char) (h : charsSub p l = true) :
    charsSub p (l ++ l') = true := by
  induction l with
  | nil =>
    simp only [charsSub] at h
    exact charsSub_of_charsStart _ _ (charsStart_append _ _ _ h)
  | cons b s ih =>
    simp only [charsSub, Bool.or_eq_true] at h
    rcases h with h | h
    · simp only [List.cons_append, charsSub, Bool.or_eq_true]
      exact Or.inl (charsStart_append _ _ _ h)
    · simp only [List.cons_append, charsSub, Bool.or_eq_true]
      exact Or.inr (ih h)

theorem charsSub_append_left (p l l' : List Char) (h : charsSub p l' = true) :
    charsSub p (l ++ l') = true := by
  induction l with
  | nil => simpa using h
  | cons b s ih => simp [charsSub, ih]

theorem charsSub_self (p : List Char) : charsSub p p = true :=
  charsSub_of_charsStart _ _ (charsStart_self p)

theorem charsSub_sandwich (p a b : List Char) : charsSub p (a ++ (p ++ b)) = true :=
  charsSub_append_left _ _ _ (charsSub_append_right _ _ _ (charsSub_self p))

theorem strHas_append_of_left (s t pat : String) (h : strHas s pat = true) :
    strHas (s ++ t) pat = true := by
  simpa [strHas, String.data_append] using charsSub_append_right _ _ _ h

theorem strHas_append_of_right (s t pat : String) (h : strHas t pat = true) :
    strHas (s ++ t) pat = true := by
  simpa [strHas, String.data_append] using charsSub_append_left _ _ _ h

theorem strHas_middle (a b pat : String) : strHas (a ++ (pat ++ b)) pat = true := by
  simpa [strHas, String.data_append] using charsSub_sandwich pat.data a.data b.data

theorem pyLower_append (a b : String) : pyLower (a ++ b) = pyLower a ++ pyLower b := by
  cases a with
  | mk la =>
    cases b with
    | mk lb =>
      show String.mk ((String.mk la ++ String.mk lb).data.map Char.toLower) = _
      rw [String.data_append, List.map_append]
      rfl

/-- Prepending the canonical acknowledgement prefix always yields a text
that passes the acknowledgement check. -/
theorem hasAck_of_canonical_ack (t : String) : hasAck (canonical_ack ++ t) = true := by
  have h1 : strHas (pyLower canonical_ack) "replying to" = true := by decide
  have h2 : strHas (pyLower canonical_ack ++ pyLower t) "replying to" = true :=
    strHas_append_of_left _ _ _ h1
  simp only [hasAck, ack_phrases, List.any_cons, Bool.or_eq_true, pyLower_append]
  exact Or.inl h2

theorem text_ne_empty_of_hasAck (t : String) (h : hasAck t = true) : t ≠ "" := by
  intro he
  rw [he] at h
  exact absurd h (by decide)

theorem canonical_ack_append_ne_empty (t : String) : canonical_ack ++ t ≠ "" := by
  intro h
  have hd : (canonical_ack ++ t).data = [] := by rw [h]
  rw [String.data_append] at hd
  have : canonical_ack.data ≠ [] := by decide
  exact this (List.append_eq_nil.mp hd).1

/-! ### Branch equations for `isha_agent` -/

theorem isha_agent_none_eq (clock : Clock) (s : ConversationState) (last : Message)
    (h : s.messages.getLast? = some last) (hrole : last.role = "user") :
    isha_agent none clock s =
      { s with messages := s.messages ++
          [{ role := "assistant", content := fallback_response s.user_name last.content,
             timestamp := clock.iso, message_id := "isha_" ++ clock.ts }] } := by
  rcases List.eq_nil_or_concat s.messages with hnil | ⟨l, a, hcat⟩
  · rw [hnil] at h; simp at h
  · have ha : a = last := by
      rw [hcat, List.concat_eq_append, List.getLast?_concat] at h
      exact Option.some.inj h
    subst ha
    simp [isha_agent, hcat, List.concat_eq_append, List.getLast?_concat, hrole]

theorem isha_agent_exn_eq (clock : Clock) (s : ConversationState) (last : Message)
    (h : s.messages.getLast? = some last) (hrole : last.role = "user") :
    isha_agent (some LLMResult.exn) clock s =
      { s with messages := s.messages ++
          [{ role := "assistant", content := error_response s.user_name,
             timestamp := clock.iso, message_id := "isha_error_" ++ clock.ts,
             error := true }] } := by
  rcases List.eq_nil_or_concat s.messages with hnil | ⟨l, a, hcat⟩
  · rw [hnil] at h; simp at h
  · have ha : a = last := by
      rw [hcat, List.concat_eq_append, List.getLast?_concat] at h
      exact Option.some.inj h
    subst ha
    simp [isha_agent, hcat, List.concat_eq_append, List.getLast?_concat, hrole]

theorem isha_agent_ok_eq (clock : Clock) (s : ConversationState) (last : Message)
    (text : String) (h : s.messages.getLast? = some last) (hrole : last.role = "user") :
    isha_agent (some (LLMResult.ok text)) clock s =
      { s with messages := s.messages ++
          [{ role := "assistant",
             content := if hasAck text then text else canonical_ack ++ text,
             timestamp := clock.iso, message_id := "isha_" ++ clock.ts }] } := by
  rcases List.eq_nil_or_concat s.messages with hnil | ⟨l, a, hcat⟩
  · rw [hnil] at h; simp at h
  · have ha : a = last := by
      rw [hcat, List.concat_eq_append, List.getLast?_concat] at h
      exact Option.some.inj h
    subst ha
    simp [isha_agent, hcat, List.concat_eq_append, List.getLast?_concat, hrole]

theorem isha_agent_noop_eq (llm : Option LLMResult) (clock : Clock) (s : ConversationState)
    (h : ∀ last, s.messages.getLast? = some last → ¬ last.role = "user") :
    isha_agent llm clock s = s := by
  rcases List.eq_nil_or_concat s.messages with hnil | ⟨l, a, hcat⟩
  · simp [isha_agent, hnil]
  · have ha : ¬ a.role = "user" := h a (by rw [hcat, List.concat_eq_append]; exact List.getLast?_concat _)
    simp [isha_agent, hcat, List.concat_eq_append, List.getLast?_concat, ha]

/-! ### Prompt-window helpers -/

theorem recent_messages_eq_drop (l : List Message) :
    recent_messages l = l.drop (l.length - 5) := by
  unfold recent_messages
  by_cases h : l.length > 5
  · simp [h]
  · have h0 : l.length - 5 = 0 := by omega
    simp [h, h0]

/-- Under the data model's closed role enum the skipping branch of
`to_prompt_turn` is dead, and the `filterMap` is a plain `map`. -/
theorem filterMap_eq_map_of_roles (l : List Message)
    (h : ∀ m ∈ l, m.role = "user" ∨ m.role = "assistant") :
    l.filterMap to_prompt_turn =
      l.map (fun m => if m.role = "user" then PromptTurn.human m.content
                      else PromptTurn.ai m.content) := by
  induction l with
  | nil => rfl
  | cons a l ih =>
    have htail : ∀ m ∈ l, m.role = "user" ∨ m.role = "assistant" := by
      intro m hm; exact h m (List.mem_cons_of_mem _ hm)
    rcases h a (List.mem_cons_self a l) with ha | ha
    · simp [to_prompt_turn, ha, ih htail]
    · by_cases hu : a.role = "user"
      · simp [to_prompt_turn, hu, ih htail]
      · simp [to_prompt_turn, hu, ha, ih htail]

/-! ### Claim theorems -/

/-- C1: on the success path, the fallback path and the error path alike —
that is, whenever the guard passes because the last message has role user —
`isha_agent` appends exactly one message, that message has role assistant,
and the length of `messages` grows by exactly one, never zero, never more. -/
theorem turn_appends_exactly_one_assistant (llm : Option LLMResult) (clock : Clock)
    (s : ConversationState) (last : Message)
    (h : s.messages.getLast? = some last) (hrole : last.role = "user") :
    ∃ m, (isha_agent llm clock s).messages = s.messages ++ [m] ∧
      m.role = "assistant" ∧
      (isha_agent llm clock s).messages.length = s.messages.length + 1 := by
  cases llm with
  | none =>
    refine ⟨{ role := "assistant", content := fallback_response s.user_name last.content,
              timestamp := clock.iso, message_id := "isha_" ++ clock.ts }, ?_, rfl, ?_⟩
    · rw [isha_agent_none_eq clock s last h hrole]
    · rw [isha_agent_none_eq clock s last h hrole]; simp
  | some r =>
    cases r with
    | ok text =>
      refine ⟨{ role := "assistant",
                content := if hasAck text then text else canonical_ack ++ text,
                timestamp := clock.iso, message_id := "isha_" ++ clock.ts }, ?_, rfl, ?_⟩
      · rw [isha_agent_ok_eq clock s last text h hrole]
      · rw [isha_agent_ok_eq clock s last text h hrole]; simp
    | exn =>
      refine ⟨{ role := "assistant", content := error_response s.user_name,
                timestamp := clock.iso, message_id := "isha_error_" ++ clock.ts,
                error := true }, ?_, rfl, ?_⟩
      · rw [isha_agent_exn_eq clock s last h hrole]
      · rw [isha_agent_exn_eq clock s last h hrole]; simp

/-- C1 witness: the theorem instantiated at a concrete one-message state
with no client configured. -/
theorem turn_appends_exactly_one_assistant_witness :
    ∃ m, (isha_agent none ⟨"T", "1"⟩
        ⟨[{ role := "user", content := "hi" }], "Sam", []⟩).messages
      = [{ role := "user", content := "hi" }] ++ [m] ∧
      m.role = "assistant" ∧
      (isha_agent none ⟨"T", "1"⟩
        ⟨[{ role := "user", content := "hi" }], "Sam", []⟩).messages.length
        = [({ role := "user", content := "hi" } : Message)].length + 1 :=
  turn_appends_exactly_one_assistant none ⟨"T", "1"⟩
    ⟨[{ role := "user", content := "hi" }], "Sam", []⟩
    { role := "user", content := "hi" } rfl rfl

/-- C2 counterexample: with the client available and the call raising, the
appended reply is not the demonstration-mode template the claim requires —
the except branch appends the error apology instead. -/
theorem call_failure_not_demo_template :
    ((isha_agent (some LLMResult.exn) ⟨"T", "1"⟩
        ⟨[{ role := "user", content := "hi" }], "Sam", []⟩).messages.getLast?.map
          Message.content)
      ≠ some (fallback_response "Sam" "hi") := by decide

/-- C2 amended: when the client is available but its call fails, the
failure is caught at the agent boundary and resolved in the same turn,
without propagation and without retry, by appending exactly one fixed
error-apology assistant message with the error flag set — not the
demonstration-mode template. -/
theorem call_failure_degrades_to_error_reply (clock : Clock) (s : ConversationState)
    (last : Message) (h : s.messages.getLast? = some last) (hrole : last.role = "user") :
    isha_agent (some LLMResult.exn) clock s =
      { s with messages := s.messages ++
          [{ role := "assistant", content := error_response s.user_name,
             timestamp := clock.iso, message_id := "isha_error_" ++ clock.ts,
             error := true }] } :=
  isha_agent_exn_eq clock s last h hrole

/-- C2 witness: the amended theorem instantiated at a concrete state. -/
theorem call_failure_degrades_to_error_reply_witness :
    isha_agent (some LLMResult.exn) ⟨"T", "1"⟩
        ⟨[{ role := "user", content := "hi" }], "Sam", []⟩ =
      { (⟨[{ role := "user", content := "hi" }], "Sam", []⟩ : ConversationState) with
        messages := [{ role := "user", content := "hi" }] ++
          [{ role := "assistant", content := error_response "Sam",
             timestamp := "T", message_id := "isha_error_" ++ "1", error := true }] } :=
  call_failure_degrades_to_error_reply ⟨"T", "1"⟩
    ⟨[{ role := "user", content := "hi" }], "Sam", []⟩
    { role := "user", content := "hi" } rfl rfl

/-- C3: every successful completion yields an appended assistant reply that
passes the acknowledgement check (case-insensitive membership of one of the
fixed phrases): the generated text is used as-is when it already contains a
phrase, and otherwise the canonical prefix is prepended. -/
theorem success_reply_acknowledges (clock : Clock) (s : ConversationState) (last : Message)
    (text : String) (h : s.messages.getLast? = some last) (hrole : last.role = "user") :
    ∃ m, (isha_agent (some (LLMResult.ok text)) clock s).messages = s.messages ++ [m] ∧
      m.role = "assistant" ∧ hasAck m.content = true ∧
      (hasAck text = true → m.content = text) ∧
      (hasAck text = false → m.content = canonical_ack ++ text) := by
  refine ⟨{ role := "assistant",
            content := if hasAck text then text else canonical_ack ++ text,
            timestamp := clock.iso, message_id := "isha_" ++ clock.ts }, ?_, rfl, ?_, ?_, ?_⟩
  · rw [isha_agent_ok_eq clock s last text h hrole]
  · by_cases ha : hasAck text
    · simp [ha]
    · simp only [ha, if_false]
      exact hasAck_of_canonical_ack text
  · intro ha; simp [ha]
  · intro ha; simp [ha]

/-- C3 witness: the theorem instantiated at a concrete state and a
generated text with no acknowledgement phrase. -/
theorem success_reply_acknowledges_witness :
    ∃ m, (isha_agent (some (LLMResult.ok "Hello")) ⟨"T", "1"⟩
        ⟨[{ role := "user", content := "hi" }], "Sam", []⟩).messages
      = [{ role := "user", content := "hi" }] ++ [m] ∧
      m.role = "assistant" ∧ hasAck m.content = true ∧
      (hasAck "Hello" = true → m.content = "Hello") ∧
      (hasAck "Hello" = false → m.content = canonical_ack ++ "Hello") :=
  success_reply_acknowledges ⟨"T", "1"⟩ ⟨[{ role := "user", content := "hi" }], "Sam", []⟩
    { role := "user", content := "hi" } "Hello" rfl rfl

/-- C4: when the messages list is empty, or its last message does not have
role user, `isha_agent` is a no-op returning the state unchanged, for every
client configuration. -/
theorem turn_noop_without_trailing_user (llm : Option LLMResult) (clock : Clock)
    (s : ConversationState)
    (h : ∀ last, s.messages.getLast? = some last → ¬ last.role = "user") :
    isha_agent llm clock s = s :=
  isha_agent_noop_eq llm clock s h

/-- C4 witness: the theorem instantiated at a state whose last message has
role assistant. -/
theorem turn_noop_without_trailing_user_witness :
    isha_agent none ⟨"T", "1"⟩ ⟨[{ role := "assistant", content := "x" }], "Sam", []⟩
      = ⟨[{ role := "assistant", content := "x" }], "Sam", []⟩ :=
  turn_noop_without_trailing_user none ⟨"T", "1"⟩
    ⟨[{ role := "assistant", content := "x" }], "Sam", []⟩
    (fun last hl => by cases hl; decide)

/-- C5: an exception raised during the turn (modelled at the completion
call, the one effectful site of the pipeline) is caught at the agent
boundary: the agent still returns a state, with one appended assistant
message whose content is the user-safe apology carrying the user_name and
whose error flag is true. -/
theorem boundary_catches_exception (clock : Clock) (s : ConversationState) (last : Message)
    (h : s.messages.getLast? = some last) (hrole : last.role = "user") :
    ∃ m, (isha_agent (some LLMResult.exn) clock s).messages = s.messages ++ [m] ∧
      m.role = "assistant" ∧ m.error = true ∧
      m.content = error_response s.user_name ∧
      strHas m.content s.user_name = true := by
  refine ⟨{ role := "assistant", content := error_response s.user_name,
            timestamp := clock.iso, message_id := "isha_error_" ++ clock.ts,
            error := true }, ?_, rfl, rfl, rfl, ?_⟩
  · rw [isha_agent_exn_eq clock s last h hrole]
  · simp only [error_response]
    exact strHas_middle _ _ _

/-- C5 witness: the theorem instantiated at a concrete state. -/
theorem boundary_catches_exception_witness :
    ∃ m, (isha_agent (some LLMResult.exn) ⟨"T", "1"⟩
        ⟨[{ role := "user", content := "hi" }], "Sam", []⟩).messages
      = [{ role := "user", content := "hi" }] ++ [m] ∧
      m.role = "assistant" ∧ m.error = true ∧
      m.content = error_response "Sam" ∧
      strHas m.content "Sam" = true :=
  boundary_catches_exception ⟨"T", "1"⟩ ⟨[{ role := "user", content := "hi" }], "Sam", []⟩
    { role := "user", content := "hi" } rfl rfl

/-- C6: for a history drawn from the data model's closed role enum, the
prompt is the system instruction followed by the most recent messages in
chronological order: exactly five turns when more than five messages
exist, and all messages when five or fewer. -/
theorem prompt_is_system_plus_recent_window (u : String) (msgs : List Message)
    (h : ∀ m ∈ msgs, m.role = "user" ∨ m.role = "assistant") :
    conversation_messages u msgs =
      PromptTurn.system (system_message u) ::
        (msgs.drop (msgs.length - 5)).map
          (fun m => if m.role = "user" then PromptTurn.human m.content
                    else PromptTurn.ai m.content) ∧
    (msgs.length > 5 → (conversation_messages u msgs).length = 1 + 5) ∧
    (msgs.length ≤ 5 → msgs.drop (msgs.length - 5) = msgs) := by
  have hdropmem : ∀ m ∈ msgs.drop (msgs.length - 5),
      m.role = "user" ∨ m.role = "assistant" := by
    intro m hm; exact h m (List.mem_of_mem_drop hm)
  have heq : conversation_messages u msgs =
      PromptTurn.system (system_message u) ::
        (msgs.drop (msgs.length - 5)).map
          (fun m => if m.role = "user" then PromptTurn.human m.content
                    else PromptTurn.ai m.content) := by
    rw [conversation_messages, recent_messages_eq_drop,
      filterMap_eq_map_of_roles _ hdropmem]
  refine ⟨heq, ?_, ?_⟩
  · intro hlen
    rw [heq]
    simp only [List.length_cons, List.length_map, List.length_drop]
    omega
  · intro hlen
    have h0 : msgs.length - 5 = 0 := by omega
    simp [h0]

/-- C6 witness: the theorem instantiated at a six-message well-formed
history. -/
theorem prompt_is_system_plus_recent_window_witness :
    conversation_messages "Sam" sampleHistory =
      PromptTurn.system (system_message "Sam") ::
        (sampleHistory.drop (sampleHistory.length - 5)).map
          (fun m => if m.role = "user" then PromptTurn.human m.content
                    else PromptTurn.ai m.content) ∧
    (sampleHistory.length > 5 → (conversation_messages "Sam" sampleHistory).length = 1 + 5) ∧
    (sampleHistory.length ≤ 5 →
      sampleHistory.drop (sampleHistory.length - 5) = sampleHistory) :=
  prompt_is_system_plus_recent_window "Sam" sampleHistory (by decide)

/-- C7: in degraded mode (no client configured) with a trailing user
message, the agent appends the fixed template reply, and its content
carries the user_name, the verbatim user input, the demo-mode statement
and an offer of help. -/
theorem degraded_reply_contents (clock : Clock) (s : ConversationState) (last : Message)
    (h : s.messages.getLast? = some last) (hrole : last.role = "user") :
    ∃ m, (isha_agent none clock s).messages = s.messages ++ [m] ∧
      m.role = "assistant" ∧
      m.content = fallback_response s.user_name last.content ∧
      strHas m.content s.user_name = true ∧
      strHas m.content last.content = true ∧
      strHas m.content "demo mode" = true ∧
      strHas m.content "help" = true := by
  refine ⟨{ role := "assistant",
            content := fallback_response s.user_name last.content,
            timestamp := clock.iso, message_id := "isha_" ++ clock.ts },
          ?_, rfl, rfl, ?_, ?_, ?_, ?_⟩
  · rw [isha_agent_none_eq clock s last h hrole]
  · simp only [fallback_response]
    exact strHas_middle _ _ _
  · simp only [fallback_response]
    apply strHas_append_of_right
    apply strHas_append_of_right
    exact strHas_middle _ _ _
  · simp only [fallback_response]
    apply strHas_append_of_right
    apply strHas_append_of_right
    apply strHas_append_of_right
    apply strHas_append_of_right
    decide
  · simp only [fallback_response]
    apply strHas_append_of_right
    apply strHas_append_of_right
    apply strHas_append_of_right
    apply strHas_append_of_right
    decide

/-- C7 witness: the theorem instantiated at a concrete degraded-mode
state. -/
theorem degraded_reply_contents_witness :
    ∃ m, (isha_agent none ⟨"T", "1"⟩
        ⟨[{ role := "user", content := "hi" }], "Sam", []⟩).messages
      = [{ role := "user", content := "hi" }] ++ [m] ∧
      m.role = "assistant" ∧
      m.content = fallback_response "Sam" "hi" ∧
      strHas m.content "Sam" = true ∧
      strHas m.content "hi" = true ∧
      strHas m.content "demo mode" = true ∧
      strHas m.content "help" = true :=
  degraded_reply_contents ⟨"T", "1"⟩ ⟨[{ role := "user", content := "hi" }], "Sam", []⟩
    { role := "user", content := "hi" } rfl rfl

/-- C8: the round-trip request with message "What's the weather", user
name "Sam" and empty history succeeds for every client configuration and
call outcome: an ok answer with status "success", a non-empty response
text, and user_name "Sam". -/
theorem chat_roundtrip_success (llm : Option LLMResult) (clock uclock : Clock) :
    ∃ r, chat llm clock uclock
        { message := "What\x27s the weather", user_name := "Sam",
          conversation_history := [], session_id := "default" } = Except.ok r ∧
      r.status = "success" ∧ r.response ≠ "" ∧ r.user_name = "Sam" := by
  cases llm with
  | none =>
    exact ⟨{ response := fallback_response "Sam" "What\x27s the weather",
             message_id := "isha_" ++ clock.ts, timestamp := clock.iso,
             user_name := "Sam", status := "success" }, rfl, rfl,
           by show fallback_response "Sam" "What\x27s the weather" ≠ ""; decide, rfl⟩
  | some r =>
    cases r with
    | exn =>
      exact ⟨{ response := error_response "Sam",
               message_id := "isha_error_" ++ clock.ts, timestamp := clock.iso,
               user_name := "Sam", status := "success" }, rfl, rfl,
             by show error_response "Sam" ≠ ""; decide, rfl⟩
    | ok text =>
      refine ⟨{ response := if hasAck text then text else canonical_ack ++ text,
                message_id := "isha_" ++ clock.ts, timestamp := clock.iso,
                user_name := "Sam", status := "success" }, rfl, rfl, ?_, rfl⟩
      show (if hasAck text then text else canonical_ack ++ text) ≠ ""
      by_cases hA : hasAck text
      · simpa [hA] using text_ne_empty_of_hasAck text hA
      · simpa [hA] using canonical_ack_append_ne_empty text

/-- C9: on every path — no-op, success, fallback, error — the agent
returns the input user_name and context untouched and only appends to the
messages, leaving the input sequence as a prefix of the output. -/
theorem state_frame_preserved (llm : Option LLMResult) (clock : Clock)
    (s : ConversationState) :
    (isha_agent llm clock s).user_name = s.user_name ∧
    (isha_agent llm clock s).context = s.context ∧
    ∃ t, (isha_agent llm clock s).messages = s.messages ++ t := by
  rcases hm : s.messages.getLast? with _ | last
  · rw [isha_agent_noop_eq llm clock s (by intro l hl; rw [hm] at hl; cases hl)]
    exact ⟨rfl, rfl, [], by simp⟩
  · by_cases hrole : last.role = "user"
    · cases llm with
      | none =>
        rw [isha_agent_none_eq clock s last hm hrole]
        exact ⟨rfl, rfl, _, rfl⟩
      | some r =>
        cases r with
        | ok text =>
          rw [isha_agent_ok_eq clock s last text hm hrole]
          exact ⟨rfl, rfl, _, rfl⟩
        | exn =>
          rw [isha_agent_exn_eq clock s last hm hrole]
          exact ⟨rfl, rfl, _, rfl⟩
    · rw [isha_agent_noop_eq llm clock s ?_]
      · exact ⟨rfl, rfl, [], by simp⟩
      · intro l hl
        rw [hm] at hl
        cases hl
        exact hrole

/-- C10: a message whose role is neither user nor assistant contributes no
prompt turn — the loop skips it — so the number of conversational turns
can be strictly below the window size even with more than five messages
present, as on the mixed sample history. -/
theorem nonstandard_roles_skipped :
    (∀ m : Message, m.role ≠ "user" → m.role ≠ "assistant" → to_prompt_turn m = none) ∧
    (mixedHistory.length > 5 ∧
      (conversation_messages "Sam" mixedHistory).length - 1 < 5) := by
  refine ⟨?_, by decide, by decide⟩
  intro m h1 h2
  simp [to_prompt_turn, h1, h2]

/-- C10 witness: the skip rule applied to a concrete system-role message. -/
theorem nonstandard_roles_skipped_witness :
    to_prompt_turn { role := "system", content := "x" } = none :=
  nonstandard_roles_skipped.1 { role := "system", content := "x" }
    (by decide) (by decide)

end Isha
